import Mathlib

/-!
Verification of the per-endpoint session/connection manager of the
fkie-multi-agent-suite GUI client.  The definitions below are a shallow
embedding of the `Provider` class
(src/fkie_mas_gui/src/renderer/providers/Provider.ts): pure fragments become
Lean functions, mutable fields become explicit state records, asynchronous
remote calls become oracle parameters (a function from the attempt number to
the outcome observed by the caller).  JavaScript sets are modelled as
duplicate-free lists in insertion order, JavaScript maps as association
lists.
-/

namespace FkieMas

/-- Opaque JSON payload returned by a successful transport call.  The
dispatcher never inspects it. -/
structure JSONObject where
  payload : String
deriving Repr, DecidableEq

/-- The opening curly brace character, used by the error classification of
makeCall.callRequest (Provider.ts line 2569). -/
def braceChar : Char := Char.ofNat 123

/-- JavaScript Set.add: append the element if it is not yet present. -/
def jsSetAdd (l : List String) (x : String) : List String :=
  if x ∈ l then l else l ++ [x]

/-- JavaScript new Set([...]) over a list: keep the first occurrence of every
element, in insertion order. -/
def jsSetOfList (l : List String) : List String :=
  l.foldl jsSetAdd []

/-- Character containment in a string (JavaScript includes over one
character). -/
def jsContainsChar (s : String) (c : Char) : Bool := s.data.contains c

/-- Does the first list start with the second one. -/
def listStartsWith : List Char → List Char → Bool
  | _, [] => true
  | [], _ :: _ => false
  | a :: as, b :: bs => a = b && listStartsWith as bs

/-- Does the needle occur anywhere in the haystack. -/
def listOccurs : List Char → List Char → Bool
  | [], needle => needle.isEmpty
  | c :: t, needle => listStartsWith (c :: t) needle || listOccurs t needle

/-- Replace the first occurrence of the pattern by the replacement. -/
def replaceFirstList : List Char → List Char → List Char → List Char
  | [], pat, repl => if pat.isEmpty then repl else []
  | c :: t, pat, repl =>
    if listStartsWith (c :: t) pat then repl ++ (c :: t).drop pat.length
    else c :: replaceFirstList t pat repl

/-- JavaScript String.prototype.includes / indexOf comparison with -1: true
when the search string occurs in the receiver. -/
def jsIncludes (s sub : String) : Bool := listOccurs s.data sub.data

/-- JavaScript String.prototype.replace with a string pattern: replaces only
the first occurrence. -/
def jsReplaceFirst (s pat repl : String) : String :=
  String.mk (replaceFirstList s.data pat.data repl.data)

/-- JavaScript String.prototype.replaceAll with a one-character pattern and a
one-character replacement (the only form Provider.ts uses). -/
def jsReplaceAllChar (s : String) (a b : Char) : String :=
  String.mk (s.data.map (fun c => if c = a then b else c))

/-- The host portion of an URI, JavaScript uri.split(one colon)[0]: the
characters before the first colon, or the whole string when it has none. -/
def hostPart (s : String) : String :=
  String.mk (s.data.takeWhile (fun c => c ≠ ':'))

/-! ## Call dispatcher (Provider.ts, makeCall / lockRequest / unlockRequest)

The transport connection (ProviderConnection) is an external collaborator:
one call attempt is modelled by an oracle from the attempt number to either
a payload or the error value observed by the catch block of
makeCall.callRequest.  The JavaScript test
JSON.parse(err).error.includes of the wamp runtime error marker is a library
operation on the error text and is abstracted by the predicate wampRuntime. -/

/-- Result of one dispatched call, as seen by the caller of makeCall. -/
inductive CallResult where
  /-- the transport call resolved -/
  | ok (r : JSONObject)
  /-- terminal: the remote reported a runtime error (never retried) -/
  | runtimeError (err : String)
  /-- terminal: the transport reported the connection closed (never retried) -/
  | connectionClosed (err : String)
  /-- the attempt budget was exhausted (Max call attempts reached) -/
  | maxAttempts
deriving Repr, DecidableEq

/-- Error classification of makeCall.callRequest (Provider.ts lines
2569-2579): an error text containing an opening brace is parsed and, when its
error field holds the wamp runtime error marker, the call fails terminally;
an error equal to the literal string of a closed connection also fails
terminally; every other error falls through to the retry logic. -/
def terminalErrorClass (wampRuntime : String → Bool) (err : String) :
    Option CallResult :=
  if jsContainsChar err braceChar then
    if wampRuntime err then some (.runtimeError err) else none
  else if err = "Connection is closed" then some (.connectionClosed err)
  else none

/-- The recursive retry loop makeCall.callRequest (Provider.ts lines
2554-2598).  Returns the result together with the number of invocations of
the underlying transport call.  [transport k] is the outcome of the attempt
with counter value k. -/
def callRequest (wampRuntime : String → Bool) (callAttempts : Nat)
    (transport : Nat → Except String JSONObject) (currentAttempt : Nat) :
    CallResult × Nat :=
  match transport currentAttempt with
  | .ok r => (.ok r, 1)
  | .error err =>
    match terminalErrorClass wampRuntime err with
    | some res => (res, 1)
    | none =>
      if h : currentAttempt ≥ callAttempts then (.maxAttempts, 1)
      else
        -- wait delayCallAttempts ms, then repeat with the next counter value
        let rest := callRequest wampRuntime callAttempts transport
          (currentAttempt + 1)
        (rest.1, rest.2 + 1)
termination_by callAttempts + 1 - currentAttempt
decreasing_by omega

/-- The fixed wait of lockRequest before re-checking the in-flight set
(Provider.ts line 2638, delay(1000)). -/
def lockDelayMs : Nat := 1000

/-- The default attempt budget of the dispatcher (Provider.ts line 186). -/
def defaultCallAttempts : Nat := 10

/-- The fixed delay between attempts (Provider.ts line 188). -/
def defaultDelayCallAttempts : Nat := 1000

/-- lockRequest (Provider.ts lines 2628-2654).  When the request is already
in the in-flight set the caller waits once (delay(1000)) and re-checks; the
boolean [releasedDuringWait] tells whether the concurrent owner removed the
request during that wait (the only mutation another task can apply while
this one is suspended).  Returns (true, unchanged set) when the request is
still in flight after the wait, otherwise adds the request to the set and
returns false. -/
def lockRequest (currentRequestList : List String) (request : String)
    (releasedDuringWait : Bool) : Bool × List String :=
  if request ∈ currentRequestList then
    let l2 := if releasedDuringWait then currentRequestList.erase request
      else currentRequestList
    if request ∈ l2 then (true, l2)
    else (false, jsSetAdd l2 request)
  else (false, jsSetAdd currentRequestList request)

/-- Outcome of makeCall as seen by its caller. -/
inductive MakeCallOutcome where
  /-- provider not yet connected: the request is ignored -/
  | notConnected
  /-- an exclusive call with the same name is already in flight -/
  | alreadyInProgress
  /-- the call was dispatched to callRequest -/
  | completed (r : CallResult)
deriving Repr, DecidableEq

/-- makeCall (Provider.ts lines 2536-2605): availability gate, optional
lock acquisition, then the retry loop; the request is removed from the
in-flight set on every terminal path.  Returns the outcome, the number of
transport invocations, and the final in-flight set. -/
def makeCall (isAvailable : Bool) (currentRequestList : List String)
    (uri : String) (lockFlag : Bool) (releasedDuringWait : Bool)
    (wampRuntime : String → Bool) (callAttempts : Nat)
    (transport : Nat → Except String JSONObject) :
    MakeCallOutcome × Nat × List String :=
  if ¬ isAvailable then (.notConnected, 0, currentRequestList)
  else
    let lock := if lockFlag then
        lockRequest currentRequestList uri releasedDuringWait
      else (false, currentRequestList)
    if lock.1 then (.alreadyInProgress, 0, lock.2)
    else
      let res := callRequest wampRuntime callAttempts transport 0
      (.completed res.1, res.2, lock.2.erase uri)

/-- An attempt outcome that falls through to the retry logic: a transport
error that is classified neither as a runtime error nor as a closed
connection. -/
def retryableAt (wampRuntime : String → Bool)
    (transport : Nat → Except String JSONObject) (k : Nat) : Prop :=
  ∃ e, transport k = .error e ∧ terminalErrorClass wampRuntime e = none

/-- When every attempt fails with a retryable error, the retry loop started
at counter value a (with a within the budget) exhausts the budget and makes
exactly callAttempts + 1 - a transport invocations. -/
theorem callRequest_allRetryable (wampRuntime : String → Bool)
    (callAttempts : Nat) (transport : Nat → Except String JSONObject)
    (hfail : ∀ k, retryableAt wampRuntime transport k) :
    ∀ a, a ≤ callAttempts →
      callRequest wampRuntime callAttempts transport a =
        (.maxAttempts, callAttempts + 1 - a) := by
  have main : ∀ m a, a ≤ callAttempts → callAttempts - a = m →
      callRequest wampRuntime callAttempts transport a =
        (.maxAttempts, callAttempts + 1 - a) := by
    intro m
    induction m with
    | zero =>
      intro a ha hm
      obtain ⟨e, he, hcl⟩ := hfail a
      rw [callRequest, he]
      dsimp only
      rw [hcl]
      dsimp only
      rw [dif_pos (by omega : a ≥ callAttempts)]
      have h1 : callAttempts + 1 - a = 1 := by omega
      rw [h1]
    | succ n ih =>
      intro a ha hm
      obtain ⟨e, he, hcl⟩ := hfail a
      rw [callRequest, he]
      dsimp only
      rw [hcl]
      dsimp only
      rw [dif_neg (by omega : ¬ a ≥ callAttempts)]
      have hrec := ih (a + 1) (by omega) (by omega)
      rw [hrec]
      dsimp only
      have h1 : callAttempts + 1 - (a + 1) + 1 = callAttempts + 1 - a := by
        omega
      rw [h1]
  intro a ha
  exact main (callAttempts - a) a ha rfl

/-- When the attempts before counter value j fail with retryable errors and
the attempt at j fails with the closed-connection error, the loop stops at j
with the closed-connection failure: exactly j + 1 - a invocations happen from
start a, and no retry follows the closed attempt. -/
theorem callRequest_closedAt (wampRuntime : String → Bool)
    (callAttempts : Nat) (transport : Nat → Except String JSONObject)
    (j : Nat) (hj : j ≤ callAttempts)
    (hbefore : ∀ k, k < j → retryableAt wampRuntime transport k)
    (hclosed : transport j = .error "Connection is closed") :
    ∀ a, a ≤ j →
      callRequest wampRuntime callAttempts transport a =
        (.connectionClosed "Connection is closed", j + 1 - a) := by
  have hnb : jsContainsChar "Connection is closed" braceChar = false := by
    decide
  have hclass : terminalErrorClass wampRuntime "Connection is closed" =
      some (.connectionClosed "Connection is closed") := by
    simp [terminalErrorClass, hnb]
  have main : ∀ m a, a ≤ j → j - a = m →
      callRequest wampRuntime callAttempts transport a =
        (.connectionClosed "Connection is closed", j + 1 - a) := by
    intro m
    induction m with
    | zero =>
      intro a ha hm
      have haeq : a = j := by omega
      subst haeq
      rw [callRequest, hclosed]
      dsimp only
      rw [hclass]
      have h1 : a + 1 - a = 1 := by omega
      rw [h1]
    | succ n ih =>
      intro a ha hm
      obtain ⟨e, he, hcl⟩ := hbefore a (by omega)
      rw [callRequest, he]
      dsimp only
      rw [hcl]
      dsimp only
      rw [dif_neg (by omega : ¬ a ≥ callAttempts)]
      have hrec := ih (a + 1) (by omega) (by omega)
      rw [hrec]
      dsimp only
      have h1 : j + 1 - (a + 1) + 1 = j + 1 - a := by omega
      rw [h1]
  intro a ha
  exact main (j - a) a ha rfl

/-- C1 counterexample: with an attempt budget of callAttempts = 2 and a
transport that fails every attempt with a retryable error, the dispatched
call makes 3 invocations of the underlying transport call before failing
with the max-attempts error, not 2 as the claim states. -/
theorem callRequest_budget2_counterexample :
    (makeCall true [] "ros.nodes.get_list" true false (fun _ => false) 2
        (fun _ => .error "timeout")).2.1 = 3 ∧ (3 : Nat) ≠ 2 := by
  constructor
  · have hcall := callRequest_allRetryable (fun _ => false) 2
      (fun _ => .error "timeout")
      (fun _ => ⟨"timeout", rfl, by decide⟩) 0 (by omega)
    simp [makeCall, lockRequest, jsSetAdd, hcall]
  · decide

/-- C1 (amended): for every call made through the dispatcher (makeCall) with
a configured attempt budget of callAttempts = 2 whose underlying transport
call fails every time with a retryable (non-terminal) error, the call fails
with the max-attempts error after exactly 3 invocations of the underlying
transport call (the initial attempt plus callAttempts retries), and the
request is no longer in the in-flight set. -/
theorem dispatcher_budget2_exhausts_after_three
    (currentRequestList : List String) (uri : String)
    (wampRuntime : String → Bool)
    (transport : Nat → Except String JSONObject)
    (hnotin : uri ∉ currentRequestList)
    (hfail : ∀ k, retryableAt wampRuntime transport k) :
    makeCall true currentRequestList uri true false wampRuntime 2 transport =
      (.completed .maxAttempts, 3,
        (jsSetAdd currentRequestList uri).erase uri) := by
  have hcall := callRequest_allRetryable wampRuntime 2 transport hfail 0
    (by omega)
  simp [makeCall, lockRequest, hnotin, hcall]

/-- Witness for the amended C1 theorem at a concrete input. -/
theorem dispatcher_budget2_exhausts_after_three_witness :
    makeCall true [] "ros.nodes.get_list" true false (fun _ => false) 2
        (fun _ => .error "timeout") =
      (.completed .maxAttempts, 3,
        (jsSetAdd [] "ros.nodes.get_list").erase "ros.nodes.get_list") :=
  dispatcher_budget2_exhausts_after_three [] "ros.nodes.get_list"
    (fun _ => false) (fun _ => .error "timeout") (by decide)
    (fun _ => ⟨"timeout", rfl, by decide⟩)

/-- C3: for every call made through the dispatcher, if the attempt with
counter value j (after j retryable failures) fails because the transport
reports the connection closed, the call fails immediately with that error
after exactly j + 1 transport invocations, regardless of the remaining
attempt budget; the classification is applied on every retry attempt, not
only on the first. -/
theorem dispatcher_closed_never_retried
    (currentRequestList : List String) (uri : String)
    (wampRuntime : String → Bool)
    (transport : Nat → Except String JSONObject)
    (callAttempts j : Nat) (hj : j ≤ callAttempts)
    (hnotin : uri ∉ currentRequestList)
    (hbefore : ∀ k, k < j → retryableAt wampRuntime transport k)
    (hclosed : transport j = .error "Connection is closed") :
    makeCall true currentRequestList uri true false wampRuntime callAttempts
        transport =
      (.completed (.connectionClosed "Connection is closed"), j + 1,
        (jsSetAdd currentRequestList uri).erase uri) := by
  have hcall := callRequest_closedAt wampRuntime callAttempts transport j hj
    hbefore hclosed 0 (by omega)
  simp [makeCall, lockRequest, hnotin, hcall]

/-- Witness for the C3 theorem: the closed-connection error arrives on the
second attempt (a retry), with 9 attempts left in the default budget, and
stops the call at 2 invocations. -/
theorem dispatcher_closed_never_retried_witness :
    makeCall true [] "ros.nodes.get_list" true false (fun _ => false)
        defaultCallAttempts
        (fun k => if k = 0 then .error "timeout"
          else .error "Connection is closed") =
      (.completed (.connectionClosed "Connection is closed"), 2,
        (jsSetAdd [] "ros.nodes.get_list").erase "ros.nodes.get_list") :=
  dispatcher_closed_never_retried [] "ros.nodes.get_list" (fun _ => false)
    (fun k => if k = 0 then .error "timeout"
      else .error "Connection is closed")
    defaultCallAttempts 1 (by decide) (by decide)
    (fun k hk => ⟨"timeout", by
      have hk0 : k = 0 := by omega
      subst hk0
      rfl, by decide⟩)
    rfl

/-- C5: for every exclusive call issued while another call with the same
operation name is in flight, the caller waits once for the fixed interval
lockDelayMs = 1000 ms; when the first call is still in flight after that
wait (releasedDuringWait = false), the second call fails with the
already-in-progress outcome, the underlying transport is not invoked at all
(0 invocations), and the in-flight set is unchanged. -/
theorem dispatcher_exclusive_duplicate_rejected
    (currentRequestList : List String) (uri : String)
    (wampRuntime : String → Bool)
    (transport : Nat → Except String JSONObject) (callAttempts : Nat)
    (hin : uri ∈ currentRequestList) :
    makeCall true currentRequestList uri true false wampRuntime callAttempts
        transport = (.alreadyInProgress, 0, currentRequestList) ∧
      lockDelayMs = 1000 := by
  refine ⟨?_, rfl⟩
  simp [makeCall, lockRequest, hin]

/-- Witness for the C5 theorem at a concrete input. -/
theorem dispatcher_exclusive_duplicate_rejected_witness :
    makeCall true ["ros.nodes.get_list"] "ros.nodes.get_list" true false
        (fun _ => false) defaultCallAttempts (fun _ => .error "timeout") =
      (.alreadyInProgress, 0, ["ros.nodes.get_list"]) ∧
      lockDelayMs = 1000 :=
  dispatcher_exclusive_duplicate_rejected ["ros.nodes.get_list"]
    "ros.nodes.get_list" (fun _ => false) (fun _ => .error "timeout")
    defaultCallAttempts (by decide)

/-! ## Clock-skew estimator (Provider.ts, calcTimeDiff) -/

/-- calcTimeDiff (Provider.ts lines 725-737): estimate of the clock skew
between the local and the remote endpoint from the local send timestamp, the
local receive timestamp and the remote timestamp, over exact rationals. -/
def calcTimeDiff (startTs endTs remoteTs : ℚ) : ℚ :=
  let diffStartEnd := endTs - startTs
  let diffToStart := remoteTs - startTs
  let diffToEnd := endTs - remoteTs
  let result := |(|diffToStart| + |diffToEnd| - diffStartEnd)| / 2
  if diffToStart < 0 then -result else result

/-- C7: the clock-skew estimator computes
sign * (|Tr - T0| + |T1 - Tr| - (T1 - T0)) / 2 with the sign negative
exactly when Tr - T0 < 0; for T0=100, Tr=90, T1=110 the result is negative
and for T0=100, Tr=130, T1=110 it is positive. -/
theorem calcTimeDiff_formula_and_antisymmetric :
    (∀ t0 t1 tr : ℚ, calcTimeDiff t0 t1 tr =
      (if tr - t0 < 0 then -1 else 1) *
        ((|tr - t0| + |t1 - tr| - (t1 - t0)) / 2)) ∧
    calcTimeDiff 100 110 90 < 0 ∧ 0 < calcTimeDiff 100 110 130 := by
  have hgen : ∀ t0 t1 tr : ℚ, calcTimeDiff t0 t1 tr =
      (if tr - t0 < 0 then -1 else 1) *
        ((|tr - t0| + |t1 - tr| - (t1 - t0)) / 2) := by
    intro t0 t1 tr
    have hnn : (0 : ℚ) ≤ |tr - t0| + |t1 - tr| - (t1 - t0) := by
      have h1 : tr - t0 ≤ |tr - t0| := le_abs_self _
      have h2 : t1 - tr ≤ |t1 - tr| := le_abs_self _
      linarith
    simp only [calcTimeDiff]
    rw [abs_of_nonneg hnn]
    by_cases h : tr - t0 < 0
    · rw [if_pos h, if_pos h]; ring
    · rw [if_neg h, if_neg h]; ring
  refine ⟨hgen, ?_, ?_⟩
  · rw [hgen]; norm_num
  · rw [hgen]; norm_num

/-! ## Connection state machine (Provider.ts, setConnectionState) -/

/-- The connection states used by Provider.ts (ConnectionState.STATES). -/
inductive ConnState where
  | UNKNOWN | STARTING | CONNECTING | CROSSBAR_CONNECTED
  | CROSSBAR_REGISTERED | CONNECTED | ERRORED | CLOSED
deriving Repr, DecidableEq

/-- The part of the Provider state owned by the connection state machine. -/
structure ProviderConn where
  connectionState : ConnState
  errorDetails : String
deriving Repr, DecidableEq

/-- A state-change event (EventProviderState: session, newState, oldState,
details). -/
structure StateEvent where
  newState : ConnState
  oldState : ConnState
  details : String
deriving Repr, DecidableEq

/-- A state-entry action triggered by setConnectionState. -/
inductive EntryAction where
  /-- delay(3000) on CONNECTING after STARTING -/
  | delay3000
  /-- registerCallbacks, then CROSSBAR_REGISTERED or ERRORED -/
  | registerCallbacks
  /-- updateDaemonInit -/
  | updateDaemonInit
deriving Repr, DecidableEq

/-- setConnectionState (Provider.ts lines 360-402): a call with the state
already held returns immediately; otherwise the state and the error details
are updated, one state-change event is emitted and the entry action of the
new state starts. -/
def setConnectionState (s : ProviderConn) (state : ConnState)
    (details : String) : ProviderConn × List StateEvent × List EntryAction :=
  if s.connectionState = state then (s, [], [])
  else
    let oldState := s.connectionState
    let s' : ProviderConn := ⟨state, details⟩
    let events := [StateEvent.mk state oldState details]
    let actions : List EntryAction :=
      if state = .CONNECTING ∧ oldState = .STARTING then [.delay3000]
      else if state = .CROSSBAR_CONNECTED then [.registerCallbacks]
      else if state = .CROSSBAR_REGISTERED then [.updateDaemonInit]
      else []
    (s', events, actions)

/-- C8: for every session state, calling setConnectionState with the state
already held is a no-op: the connection state and the stored error details
are unchanged, no state-change event is emitted and no entry action is
triggered. -/
theorem setConnectionState_same_state_noop (s : ProviderConn)
    (details : String) :
    setConnectionState s s.connectionState details = (s, [], []) := by
  simp [setConnectionState]

/-! ## Node model and diagnostics merge (models/Diagnostics.ts;
Provider.ts, updateDiagnostics) -/

/-- DiagnosticKeyValue (models/Diagnostics.ts). -/
structure DiagnosticKeyValue where
  key : String
  value : String
deriving Repr, DecidableEq

/-- DiagnosticStatus (models/Diagnostics.ts); the level is the numeric
diagnostic level 0..3. -/
structure DiagnosticStatus where
  level : Nat
  name : String
  message : String
  hardware_id : String
  values : List DiagnosticKeyValue
deriving Repr, DecidableEq

/-- RosNodeStatus: the liveness states used by Provider.ts. -/
inductive RosNodeStatus where
  | UNKNOWN | RUNNING | INACTIVE | NOT_MONITORED | DEAD
deriving Repr, DecidableEq

/-- The fields of a node declaration inside a configuration bundle
(LaunchNode) that Provider.ts reads. -/
structure LaunchNode where
  unique_name : Option String
  node_namespace : Option String
  composable_container : Option String
deriving Repr, DecidableEq

/-- A managed process on the remote endpoint.  The RosNode model class is
not under the embedded sources; the fields are exactly those Provider.ts
reads and writes (the namespace field is renamed node_namespace because
namespace is a Lean keyword). -/
structure RosNode where
  id : String
  name : String
  node_namespace : String
  node_API_URI : String
  status : RosNodeStatus
  pid : Int
  masteruri : String
  idGlobal : String
  providerName : String
  providerId : String
  diagnosticLevel : Nat
  diagnosticMessage : String
  diagnosticStatus : List DiagnosticStatus
  launchPaths : List String
  launchPath : String
  group : String
  launchInfo : Option LaunchNode
  rosLoggers : List String
  parameters : List (String × String)
  associations : List String
  parent_id : Option String
deriving Repr, DecidableEq

/-- Modelled from the spec: the RosNode constructor with the five arguments
Provider.ts passes (the model class is not under the embedded sources).  Per
the spec the process id is 0 when the node is not running and all
accumulated state (diagnostic history, bundle paths, parameters,
associations) starts empty. -/
def newRosNode (id name node_namespace node_API_URI : String)
    (status : RosNodeStatus) : RosNode where
  id := id
  name := name
  node_namespace := node_namespace
  node_API_URI := node_API_URI
  status := status
  pid := 0
  masteruri := ""
  idGlobal := ""
  providerName := ""
  providerId := ""
  diagnosticLevel := 0
  diagnosticMessage := ""
  diagnosticStatus := []
  launchPaths := []
  launchPath := ""
  group := ""
  launchInfo := none
  rosLoggers := []
  parameters := []
  associations := []
  parent_id := none

/-- The update applied to the matched node for one incoming diagnostic
status (Provider.ts lines 1279-1298): the current level and message are
overwritten and the status is appended to the history unless it exactly
repeats the most recent entry (same level, same message, same number of
values). -/
def applyDiagnosticStatus (node : RosNode) (status : DiagnosticStatus) :
    RosNode :=
  let node1 := { node with diagnosticLevel := status.level,
                           diagnosticMessage := status.message }
  match node1.diagnosticStatus.getLast? with
  | none => { node1 with
      diagnosticStatus := node1.diagnosticStatus ++ [status] }
  | some lastStatus =>
    if lastStatus.level ≠ status.level ∨ lastStatus.message ≠ status.message ∨
        lastStatus.values.length ≠ status.values.length then
      { node1 with diagnosticStatus := node1.diagnosticStatus ++ [status] }
    else node1

/-- One status of an incoming diagnostics message updates the first node
whose id equals the status name (Provider.ts lines 1275-1299, rosNodes.find
followed by the in-place update). -/
def updateFirstMatching (nodes : List RosNode) (status : DiagnosticStatus) :
    List RosNode :=
  match nodes with
  | [] => []
  | n :: rest =>
    if n.id = status.name then applyDiagnosticStatus n status :: rest
    else n :: updateFirstMatching rest status

/-- updateDiagnostics (Provider.ts lines 1265-1305) for a delivered message:
every status of the array is applied in order. -/
def updateDiagnostics (nodes : List RosNode)
    (statusList : List DiagnosticStatus) : List RosNode :=
  statusList.foldl updateFirstMatching nodes

/-- C6: for every node matched by an incoming diagnostics update, the
diagnostic history is never replaced or truncated - the new history extends
the old one - and the new status is appended exactly when its level, message
or number of values differs from the most recently recorded entry (with an
empty history there is no most recent entry and the status is always
appended). -/
theorem updateDiagnostics_append_only (node : RosNode)
    (status : DiagnosticStatus) :
    (∃ tail, (applyDiagnosticStatus node status).diagnosticStatus =
       node.diagnosticStatus ++ tail) ∧
    ((applyDiagnosticStatus node status).diagnosticStatus =
       node.diagnosticStatus ++ [status] ↔
     node.diagnosticStatus.getLast?.elim True (fun lastStatus =>
       lastStatus.level ≠ status.level ∨
       lastStatus.message ≠ status.message ∨
       lastStatus.values.length ≠ status.values.length)) := by
  unfold applyDiagnosticStatus
  cases hlast : node.diagnosticStatus.getLast? with
  | none =>
    simp only [hlast]
    refine ⟨⟨[status], by simp⟩, ?_⟩
    simp
  | some lastStatus =>
    simp only [hlast]
    by_cases hdiff : lastStatus.level ≠ status.level ∨
        lastStatus.message ≠ status.message ∨
        lastStatus.values.length ≠ status.values.length
    · refine ⟨⟨[status], by simp [hdiff]⟩, ?_⟩
      simp [hdiff]
    · refine ⟨⟨[], by simp [hdiff]⟩, ?_⟩
      simp [hdiff]

/-! ## Topic echo subscriptions (Provider.ts, startSubscriber /
stopSubscriber) -/

/-- generateCrossbarTopic (Provider.ts line 1675): the crossbar event topic
name for an echoed topic, built from the ros.subscriber.event base of
models/Crossbar.ts. -/
def generateCrossbarTopic (topic : String) : String :=
  "ros.subscriber.event" ++ "." ++ jsReplaceAllChar topic '/' '_'

/-- The per-session echo subscription state: the echoed topic names and the
subscribed crossbar event topics. -/
structure EchoState where
  echoTopics : List String
  subscribedUris : List String
deriving Repr, DecidableEq

/-- startSubscriber (Provider.ts lines 1716-1750).  [remoteStartOk] is the
resolved value of the dispatched ros.subscriber.start call: false both when
the remote resolves false and when the call fails (the catch handler
resolves it to false).  Returns the new state, the resolved value of
startSubscriber, and the number of remote start invocations.  The topic is
added to the echo set before the remote call and is not removed when the
call fails. -/
def startSubscriber (s : EchoState) (topic : String) (remoteStartOk : Bool) :
    EchoState × Bool × Nat :=
  let hasEcho := topic ∈ s.echoTopics
  if hasEcho then (s, true, 0)
  else
    let s1 := { s with echoTopics := s.echoTopics ++ [topic] }
    let result := remoteStartOk
    if result then
      ({ s1 with subscribedUris :=
          jsSetAdd s1.subscribedUris (generateCrossbarTopic topic) },
        result, 1)
    else (s1, result, 1)

/-- stopSubscriber (Provider.ts lines 1758-1785): when the topic is echoed,
remove it from the echo set and close its event subscription; then dispatch
the remote ros.subscriber.stop call, whose outcome [remoteStopOk] becomes
the result. -/
def stopSubscriber (s : EchoState) (topic : String) (remoteStopOk : Bool) :
    EchoState × Bool :=
  let s1 := if topic ∈ s.echoTopics then
      { echoTopics := s.echoTopics.filter (fun e => e ≠ topic),
        subscribedUris :=
          s.subscribedUris.erase (generateCrossbarTopic topic) }
    else s
  (s1, remoteStopOk)

/-- C9: startSubscriber is idempotent per topic: for every topic, calling it
twice in succession (the second call after the first completed) issues at
most one remote subscribe, and when the remote call of the first invocation
succeeds both calls resolve true. -/
theorem startSubscriber_idempotent (s : EchoState) (topic : String)
    (ok1 ok2 : Bool) (h1 : ok1 = true) :
    ((startSubscriber s topic ok1).2.2 +
      (startSubscriber (startSubscriber s topic ok1).1 topic ok2).2.2 ≤ 1) ∧
    (startSubscriber s topic ok1).2.1 = true ∧
    (startSubscriber (startSubscriber s topic ok1).1 topic ok2).2.1 =
      true := by
  subst h1
  by_cases hmem : topic ∈ s.echoTopics
  · simp [startSubscriber, hmem]
  · simp [startSubscriber, hmem]

/-- Witness for the C9 theorem at a concrete input. -/
theorem startSubscriber_idempotent_witness :
    (((startSubscriber ⟨[], []⟩ "/chatter" true).2.2 +
      (startSubscriber (startSubscriber ⟨[], []⟩ "/chatter" true).1
        "/chatter" true).2.2 ≤ 1) ∧
    (startSubscriber ⟨[], []⟩ "/chatter" true).2.1 = true ∧
    (startSubscriber (startSubscriber ⟨[], []⟩ "/chatter" true).1
      "/chatter" true).2.1 = true) :=
  startSubscriber_idempotent ⟨[], []⟩ "/chatter" true true rfl

/-- C10: startSubscriber adds the topic to the echo set before the remote
subscribe and does not remove it when the remote call fails: the first call
resolves false after one remote invocation but leaves the topic marked;
every subsequent call for the topic resolves true with zero remote
invocations, until stopSubscriber removes the topic, after which the next
start issues a remote call again. -/
theorem startSubscriber_failed_remote_sticky (s : EchoState) (topic : String)
    (hnot : topic ∉ s.echoTopics) :
    (topic ∈ (startSubscriber s topic false).1.echoTopics ∧
      (startSubscriber s topic false).2.1 = false ∧
      (startSubscriber s topic false).2.2 = 1) ∧
    (∀ ok, startSubscriber (startSubscriber s topic false).1 topic ok =
      ((startSubscriber s topic false).1, true, 0)) ∧
    (∀ okStop, topic ∉
      (stopSubscriber (startSubscriber s topic false).1 topic
        okStop).1.echoTopics) ∧
    (∀ okStop ok2, (startSubscriber
      (stopSubscriber (startSubscriber s topic false).1 topic okStop).1
        topic ok2).2.2 = 1) := by
  refine ⟨?_, ?_, ?_, ?_⟩
  · simp [startSubscriber, hnot]
  · intro ok
    simp [startSubscriber, hnot]
  · intro okStop
    simp [startSubscriber, stopSubscriber, hnot, List.mem_filter]
  · intro okStop ok2
    cases ok2 <;>
      simp [startSubscriber, stopSubscriber, hnot, List.mem_filter]

/-- Witness for the C10 theorem at a concrete input. -/
theorem startSubscriber_failed_remote_sticky_witness :
    ((("/chatter" ∈ (startSubscriber ⟨[], []⟩ "/chatter" false).1.echoTopics ∧
      (startSubscriber ⟨[], []⟩ "/chatter" false).2.1 = false ∧
      (startSubscriber ⟨[], []⟩ "/chatter" false).2.2 = 1) ∧
    (∀ ok, startSubscriber (startSubscriber ⟨[], []⟩ "/chatter" false).1
        "/chatter" ok =
      ((startSubscriber ⟨[], []⟩ "/chatter" false).1, true, 0)) ∧
    (∀ okStop, "/chatter" ∉
      (stopSubscriber (startSubscriber ⟨[], []⟩ "/chatter" false).1
        "/chatter" okStop).1.echoTopics) ∧
    (∀ okStop ok2, (startSubscriber
      (stopSubscriber (startSubscriber ⟨[], []⟩ "/chatter" false).1
        "/chatter" okStop).1 "/chatter" ok2).2.2 = 1))) :=
  startSubscriber_failed_remote_sticky ⟨[], []⟩ "/chatter" (by decide)

/-! ## Discovery propagation (Provider.ts, updateProviderList) -/

/-- RosProviderState: one entry of the peer list returned by
ros.provider.get_list (fields read by updateProviderList). -/
structure RosProviderState where
  origin : Bool
  name : Option String
  host : String
  port : Nat
  hostnames : List String
  ros_version : Option String
deriving Repr, DecidableEq

/-- The peer session object constructed by updateProviderList for a
discovered peer: new Provider(settings, host, ros_version or 2, port, ...)
followed by np.rosState = p and np.discovered = [this.id]. -/
structure PeerSession where
  host : String
  port : Nat
  rosVersion : String
  rosState : Option RosProviderState
  discovered : List String
deriving Repr, DecidableEq

/-- Modelled from the spec: a session url() delegates to the uri of its
transport connection, which is built from the host and port the session was
constructed with; the transport classes are not under the embedded sources
and the spec keys peer identity by the address/port of the peer, so the url
is modelled as that pair. -/
def PeerSession.url (p : PeerSession) : String × Nat := (p.host, p.port)

/-- The peer session built from one non-origin entry (Provider.ts lines
528-540). -/
def mkPeer (selfId : String) (p : RosProviderState) : PeerSession where
  host := p.host
  port := p.port
  rosVersion := p.ros_version.getD "2"
  rosState := some p
  discovered := [selfId]

/-- The discovery-relevant state of one session. -/
structure DiscoveryState where
  id : String
  connHost : String
  hostnames : List String
  remoteProviders : List PeerSession
  rosState : Option RosProviderState
  discovery : Bool
  conn : ProviderConn
deriving Repr, DecidableEq

/-- The mutable bindings of the forEach loop of updateProviderList. -/
structure DiscAcc where
  rosState : Option RosProviderState
  hostnames : List String
  oldRemote : List PeerSession
  newRemote : List PeerSession
deriving Repr, DecidableEq

/-- Processing of one entry of the pulled peer list (the forEach body,
Provider.ts lines 505-543): the origin entry refreshes the own identity and
accumulates hostnames; every other entry constructs a fresh peer session,
drops entries with the same url from the previous list and appends the new
session to the rebuilt list. -/
def processPeerEntry (selfId connHost : String) (acc : DiscAcc)
    (p : RosProviderState) : DiscAcc :=
  if p.origin then
    let hostnames1 :=
      if connHost ≠ "localhost" ∧ connHost ≠ p.host ∧
          connHost ∉ p.hostnames then
        if p.host ≠ "" then acc.hostnames ++ [p.host] else acc.hostnames
      else acc.hostnames
    { acc with rosState := some p,
               hostnames := jsSetOfList (hostnames1 ++ p.hostnames) }
  else
    let np := mkPeer selfId p
    { acc with
        oldRemote := acc.oldRemote.filter (fun orp => orp.url ≠ np.url),
        newRemote := acc.newRemote ++ [np] }

/-- updateProviderList (Provider.ts lines 478-560) after the pull resolved:
when the returned list is nonempty the remote provider list is rebuilt from
scratch, a discovered event is emitted for every rebuilt entry, a removed
event for every previous entry whose address/port key no new entry matched,
and the state moves to CONNECTED.  Returns the new state, the discovered
events, the removed events and the boolean result. -/
def updateProviderList (s : DiscoveryState)
    (rosProviders : List RosProviderState) :
    DiscoveryState × List PeerSession × List PeerSession × Bool :=
  if 0 < rosProviders.length then
    let acc0 : DiscAcc := ⟨s.rosState, s.hostnames, s.remoteProviders, []⟩
    let acc := rosProviders.foldl (processPeerEntry s.id s.connHost) acc0
    let conn1 := (setConnectionState s.conn .CONNECTED "").1
    ({ s with hostnames := acc.hostnames,
              remoteProviders := acc.newRemote,
              rosState := acc.rosState,
              discovery := true,
              conn := conn1 },
      acc.newRemote, acc.oldRemote, true)
  else (s, [], [], false)

/-- The sessions constructed from the non-origin entries of a pull, in
order. -/
def mkPeers (selfId : String) (pull : List RosProviderState) :
    List PeerSession :=
  pull.filterMap (fun p => if p.origin then none else some (mkPeer selfId p))

/-- A previous peer session survives the filter chain of a pull exactly
when no non-origin entry of the pull carries its address/port key. -/
def survivesPull (pull : List RosProviderState) (orp : PeerSession) : Bool :=
  pull.all (fun p => p.origin || decide (orp.url ≠ (mkPeer "" p).url))

/-- The loop of updateProviderList rebuilds the new list as the constructed
peers and filters the previous list down to the survivors. -/
theorem foldl_processPeerEntry (selfId connHost : String)
    (pull : List RosProviderState) :
    ∀ acc : DiscAcc,
      (pull.foldl (processPeerEntry selfId connHost) acc).newRemote =
        acc.newRemote ++ mkPeers selfId pull ∧
      (pull.foldl (processPeerEntry selfId connHost) acc).oldRemote =
        acc.oldRemote.filter (survivesPull pull) := by
  induction pull with
  | nil =>
    intro acc
    refine ⟨by simp [mkPeers], ?_⟩
    have hall : List.filter (survivesPull []) acc.oldRemote =
        List.filter (fun _ => true) acc.oldRemote := by
      apply List.filter_congr
      intro x _
      simp [survivesPull]
    rw [hall, List.filter_true]
    rfl
  | cons p rest ih =>
    intro acc
    simp only [List.foldl_cons]
    obtain ⟨ihn, iho⟩ := ih (processPeerEntry selfId connHost acc p)
    by_cases hp : p.origin
    · constructor
      · rw [ihn]
        simp [processPeerEntry, hp, mkPeers]
      · rw [iho]
        simp only [processPeerEntry, hp, if_pos]
        apply List.filter_congr
        intro x _
        simp [survivesPull, hp]
    · constructor
      · rw [ihn]
        simp [processPeerEntry, hp, mkPeers]
      · rw [iho]
        simp only [processPeerEntry, hp, Bool.false_eq_true, ite_false]
        rw [List.filter_filter]
        apply List.filter_congr
        intro x _
        simp [survivesPull, List.all_cons, hp, PeerSession.url, mkPeer,
          Bool.and_comm]

/-- C2 counterexample: a pull list with the origin entry for h1 and one
peer h2:7777, pulled twice in a row from a fresh session: the second,
identical pull emits one more discovered event (for the freshly rebuilt
peer session of h2:7777), not zero. -/
theorem updateProviderList_second_pull_counterexample :
    ((updateProviderList
      (updateProviderList
        ⟨"p0", "h1", ["h1"], [], none, false, ⟨.CROSSBAR_REGISTERED, ""⟩⟩
        [⟨true, none, "h1", 8080, ["h1"], none⟩,
         ⟨false, none, "h2", 7777, [], some "2"⟩]).1
      [⟨true, none, "h1", 8080, ["h1"], none⟩,
       ⟨false, none, "h2", 7777, [], some "2"⟩]).2.1.length = 1) ∧
    (1 : Nat) ≠ 0 := by
  constructor
  · decide
  · decide

/-- A nonempty pull emits one discovered event per non-origin entry. -/
theorem updateProviderList_discovered (s : DiscoveryState)
    (pull : List RosProviderState) (h : 0 < pull.length) :
    (updateProviderList s pull).2.1 = mkPeers s.id pull := by
  simp only [updateProviderList, if_pos h]
  have := (foldl_processPeerEntry s.id s.connHost pull
    ⟨s.rosState, s.hostnames, s.remoteProviders, []⟩).1
  simpa using this

/-- A nonempty pull emits removed events exactly for the previous sessions
whose address/port key no non-origin entry of the pull matches. -/
theorem updateProviderList_removed (s : DiscoveryState)
    (pull : List RosProviderState) (h : 0 < pull.length) :
    (updateProviderList s pull).2.2.1 =
      s.remoteProviders.filter (survivesPull pull) := by
  simp only [updateProviderList, if_pos h]
  exact (foldl_processPeerEntry s.id s.connHost pull
    ⟨s.rosState, s.hostnames, s.remoteProviders, []⟩).2

/-- The session id is untouched by updateProviderList. -/
theorem updateProviderList_id (s : DiscoveryState)
    (pull : List RosProviderState) :
    (updateProviderList s pull).1.id = s.id := by
  by_cases h : 0 < pull.length
  · simp [updateProviderList, if_pos h]
  · simp [updateProviderList, if_neg h]

/-- A nonempty pull replaces the remote provider list by the freshly
constructed peer sessions. -/
theorem updateProviderList_remote (s : DiscoveryState)
    (pull : List RosProviderState) (h : 0 < pull.length) :
    (updateProviderList s pull).1.remoteProviders = mkPeers s.id pull := by
  simp only [updateProviderList, if_pos h]
  have := (foldl_processPeerEntry s.id s.connHost pull
    ⟨s.rosState, s.hostnames, s.remoteProviders, []⟩).1
  simpa using this

/-- Every session constructed from a pull is matched by its own entry, so
it never survives the filter chain of the same pull. -/
theorem mkPeers_not_survives (selfId : String)
    (pull : List RosProviderState) :
    ∀ x ∈ mkPeers selfId pull, ¬ survivesPull pull x = true := by
  intro x hx
  simp only [mkPeers, List.mem_filterMap] at hx
  obtain ⟨p, hp, hpe⟩ := hx
  by_cases horig : p.origin
  · simp [horig] at hpe
  · simp only [horig, Bool.false_eq_true, ite_false, Option.some.injEq] at hpe
    intro hs
    simp only [survivesPull, List.all_eq_true] at hs
    have := hs p hp
    simp [horig, ← hpe, PeerSession.url, mkPeer] at this

/-- C2 (amended): for every discovery pull whose returned peer list is
identical to the previous pull, the second pull emits the same discovered
events again - one freshly constructed session object per non-origin entry,
not zero - while the address/port key comparison guarantees that the second
pull reports no peer as removed (a peer present in both pulls is never
removed); identity is compared by the address/port key, not by session
object identity. -/
theorem updateProviderList_second_pull_stable (s : DiscoveryState)
    (pull : List RosProviderState) :
    (updateProviderList (updateProviderList s pull).1 pull).2.1 =
      (updateProviderList s pull).2.1 ∧
    (updateProviderList (updateProviderList s pull).1 pull).2.2.1 = [] := by
  by_cases h : 0 < pull.length
  · constructor
    · rw [updateProviderList_discovered _ _ h,
        updateProviderList_discovered _ _ h, updateProviderList_id]
    · rw [updateProviderList_removed _ _ h, updateProviderList_remote _ _ h]
      rw [List.filter_eq_nil_iff]
      exact mkPeers_not_survives s.id pull
  · have hnil : pull = [] := by
      cases pull with
      | nil => rfl
      | cons a b => simp at h
    subst hnil
    simp [updateProviderList]

/-! ## Configuration-bundle reconciliation and node-list merge
(Provider.ts, updateLaunchContent / updateRosNodes) -/

/-- RosParameter (fields used by updateLaunchContent). -/
structure RosParameter where
  name : String
  value : String
  typ : String
  providerId : String
deriving Repr, DecidableEq

/-- One association entry of a configuration bundle. -/
structure LaunchAssociations where
  node : String
  nodes : List String
deriving Repr, DecidableEq

/-- LaunchContent: a configuration bundle (fields used by
updateLaunchContent). -/
structure LaunchContent where
  path : String
  masteruri : String
  host : String
  nodes : List LaunchNode
  parameters : List RosParameter
  associations : List LaunchAssociations
deriving Repr, DecidableEq

/-- JavaScript Map.set on an association list: overwrite the value of an
existing key, otherwise append the pair. -/
def jsMapSet (m : List (String × String)) (k v : String) :
    List (String × String) :=
  if m.any (fun kv => kv.1 = k) then
    m.map (fun kv => if kv.1 = k then (k, v) else kv)
  else m ++ [(k, v)]

/-- The parameter map built for one declared node (Provider.ts lines
1364-1378): every bundle parameter whose name contains the unique node name
is entered under the name with its first occurrence of the unique node name
removed. -/
def nodeParametersFor (params : List RosParameter)
    (uniqueNodeName : String) : List (String × String) :=
  params.foldl (fun m p =>
    if jsIncludes p.name uniqueNodeName then
      jsMapSet m (jsReplaceFirst p.name uniqueNodeName "") p.value
    else m) []

/-- The associations selected for one declared node (Provider.ts lines
1380-1385): the nodes list of the last association entry whose node field
equals the unique node name. -/
def associationsFor (assocs : List LaunchAssociations)
    (uniqueNodeName : String) : List String :=
  assocs.foldl (fun acc item =>
    if item.node = uniqueNodeName then item.nodes else acc) []

/-- Update the first node whose name equals the given one; the boolean
tells whether such a node was found (mirrors findIndex followed by the
indexed update, Provider.ts lines 1389-1398). -/
def updateFirstByName (nodes : List RosNode) (uniqueNodeName : String)
    (f : RosNode → RosNode) : List RosNode × Bool :=
  match nodes with
  | [] => ([], false)
  | n :: rest =>
    if n.name = uniqueNodeName then (f n :: rest, true)
    else
      let r := updateFirstByName rest uniqueNodeName f
      (n :: r.1, r.2)

/-- Reconciliation of one declared node of one bundle (Provider.ts lines
1363-1419): when a node of the same name exists the bundle path, the
parameters, the launch info and the associations are attached to it;
otherwise an INACTIVE placeholder node is appended, carrying the stable
compound id derived from the declared name. -/
def reconcileLaunchNode (providerId providerName : String)
    (launchFile : LaunchContent) (rosNodes : List RosNode)
    (launchNode : LaunchNode) : List RosNode :=
  let uniqueNodeName := launchNode.unique_name.getD ""
  if uniqueNodeName = "" then rosNodes
  else
    let nodeParameters := nodeParametersFor launchFile.parameters
      uniqueNodeName
    let associations := associationsFor launchFile.associations
      uniqueNodeName
    let upd := updateFirstByName rosNodes uniqueNodeName (fun n =>
      { n with launchPaths := jsSetAdd n.launchPaths launchFile.path,
               parameters := nodeParameters,
               launchInfo := some launchNode,
               associations := associations })
    if upd.2 then upd.1
    else
      let n0 := newRosNode uniqueNodeName uniqueNodeName
        (launchNode.node_namespace.getD "") "" .INACTIVE
      let n1 := { n0 with
        launchPaths := jsSetAdd n0.launchPaths launchFile.path,
        parameters := nodeParameters,
        launchInfo := some launchNode,
        idGlobal := providerId ++ jsReplaceAllChar uniqueNodeName '/' '.',
        providerName := providerName,
        providerId := providerId,
        associations := associations }
      rosNodes ++ [n1]

/-- Reconciliation of every declared node of one bundle. -/
def reconcileLaunchFile (providerId providerName : String)
    (rosNodes : List RosNode) (launchFile : LaunchContent) :
    List RosNode :=
  launchFile.nodes.foldl
    (reconcileLaunchNode providerId providerName launchFile) rosNodes

/-- The bundle filter of updateLaunchContent (Provider.ts lines 1333-1338):
a bundle is kept unless the session has a masteruri and the bundle
disagrees with it. -/
def filterLaunchContent (rosStateMasteruri : String)
    (parsedList : List LaunchContent) : List LaunchContent :=
  parsedList.filter (fun parsed =>
    !(rosStateMasteruri != "" && parsed.masteruri != rosStateMasteruri))

/-- updateLaunchContent (Provider.ts lines 1312-1421) restricted to its
effect on the node model: filter the pulled bundles by the session
masteruri, then reconcile every declared node of every bundle.  The
trailing tag-assignment pass (lines 1423-1461) only rewrites node tags and
is not part of the modelled state. -/
def updateLaunchContent (providerId providerName rosStateMasteruri : String)
    (parsedList : List LaunchContent) (rosNodes : List RosNode) :
    List RosNode :=
  (filterLaunchContent rosStateMasteruri parsedList).foldl
    (reconcileLaunchFile providerId providerName) rosNodes

/-- The per-node processing of updateRosNodes (Provider.ts lines
2378-2415): assign the provider-stable compound id, and - only when both the
node API URI and the masteruri are nonempty (the early return for an empty
one also skips everything after it) - infer DEAD or NOT_MONITORED for a
node without a live process by comparing the host parts of the two URIs,
and carry forward the accumulated state of the previous snapshot by
matching on the compound id. -/
def mergeRosNode (providerId providerName : String)
    (oldNodes : List RosNode) (n : RosNode) : RosNode :=
  let n1 := { n with
    idGlobal := providerId ++ jsReplaceAllChar n.id '/' '.',
    providerName := providerName,
    providerId := providerId }
  if n1.node_API_URI = "" then n1
  else if n1.masteruri = "" then n1
  else
    let n2 :=
      if n1.pid ≤ 0 then
        if hostPart n1.node_API_URI = hostPart n1.masteruri then
          { n1 with status := .DEAD }
        else { n1 with status := .NOT_MONITORED }
      else n1
    match oldNodes.find? (fun item => item.idGlobal = n2.idGlobal) with
    | some oldNode =>
      { n2 with diagnosticStatus := oldNode.diagnosticStatus,
                diagnosticLevel := oldNode.diagnosticLevel,
                diagnosticMessage := oldNode.diagnosticMessage,
                launchPaths := oldNode.launchPaths,
                launchPath := oldNode.launchPath,
                group := oldNode.group,
                launchInfo := oldNode.launchInfo,
                rosLoggers := oldNode.rosLoggers }
    | none => n2

/-- updateRosNodes (Provider.ts lines 2343-2426) after the fetch and the
remote-node/ignore filter: every pulled node is processed by mergeRosNode
against the previous snapshot, the snapshot is replaced by the processed
list, and updateLaunchContent runs again over the current bundles. -/
def updateRosNodes (providerId providerName rosStateMasteruri : String)
    (launchFiles : List LaunchContent) (oldNodes : List RosNode)
    (nl : List RosNode) : List RosNode :=
  let merged := nl.map (mergeRosNode providerId providerName oldNodes)
  updateLaunchContent providerId providerName rosStateMasteruri launchFiles
    merged

/-- The declaration of the node /talker inside a configuration bundle. -/
def talkerLaunchNode : LaunchNode :=
  ⟨some "/talker", some "/", none⟩

/-- A configuration bundle declaring only the node /talker. -/
def talkerLaunchFile : LaunchContent :=
  ⟨"/pkg/talker.launch", "", "", [talkerLaunchNode], [], []⟩

/-- The node record of a running /talker with process id 1234 as reported
by a node-list pull, with the given node API URI and masteruri. -/
def runningTalker (apiUri mu : String) : RosNode :=
  { newRosNode "/talker" "/talker" "/" apiUri .RUNNING with
      pid := 1234, masteruri := mu }

/-- The declared-then-running scenario: the bundle pull synthesizes the
INACTIVE /talker, a diagnostics update records the status d against it, and
a node-list pull then reports the running /talker. -/
def declaredThenRunning (apiUri mu : String) (d : DiagnosticStatus) :
    List RosNode :=
  let afterLaunch := updateLaunchContent "prov1" "host1" ""
    [talkerLaunchFile] []
  let afterDiag := updateDiagnostics afterLaunch [d]
  updateRosNodes "prov1" "host1" "" [talkerLaunchFile] afterDiag
    [runningTalker apiUri mu]

/-- The INACTIVE placeholder the bundle pull synthesizes for /talker. -/
def inactiveTalker : RosNode :=
  { newRosNode "/talker" "/talker" "/" "" .INACTIVE with
      launchPaths := ["/pkg/talker.launch"],
      launchInfo := some talkerLaunchNode,
      idGlobal := "prov1.talker",
      providerName := "host1",
      providerId := "prov1" }

/-- The placeholder after the diagnostics update recorded d. -/
def diagTalker (d : DiagnosticStatus) : RosNode :=
  { inactiveTalker with
      diagnosticLevel := d.level,
      diagnosticMessage := d.message,
      diagnosticStatus := [d] }

/-- The single node expected after the node-list pull merged the running
record with the placeholder. -/
def mergedTalker (apiUri mu : String) (d : DiagnosticStatus) : RosNode :=
  { runningTalker apiUri mu with
      idGlobal := "prov1.talker",
      providerName := "host1",
      providerId := "prov1",
      diagnosticLevel := d.level,
      diagnosticMessage := d.message,
      diagnosticStatus := [d],
      launchPaths := ["/pkg/talker.launch"],
      launchInfo := some talkerLaunchNode }

/-- The bundle pull with no running node yields exactly the INACTIVE
placeholder. -/
theorem updateLaunchContent_talker :
    updateLaunchContent "prov1" "host1" "" [talkerLaunchFile] [] =
      [inactiveTalker] := by decide

/-- The diagnostics update appends d to the placeholder history. -/
theorem updateDiagnostics_talker (d : DiagnosticStatus)
    (hd : d.name = "/talker") :
    updateDiagnostics [inactiveTalker] [d] = [diagTalker d] := by
  have hid : inactiveTalker.id = "/talker" := rfl
  have hds : inactiveTalker.diagnosticStatus = [] := rfl
  simp [updateDiagnostics, updateFirstMatching, applyDiagnosticStatus, hid,
    hd, hds, diagTalker]

/-- The node-list merge followed by the bundle re-reconciliation yields the
single merged running node. -/
theorem declaredThenRunning_eq (apiUri mu : String) (d : DiagnosticStatus)
    (hapi : apiUri ≠ "") (hmu : mu ≠ "") (hd : d.name = "/talker") :
    declaredThenRunning apiUri mu d = [mergedTalker apiUri mu d] := by
  have hrepl : "prov1" ++ jsReplaceAllChar "/talker" '/' '.' =
      "prov1.talker" := by decide
  have hsetadd : jsSetAdd ["/pkg/talker.launch"] "/pkg/talker.launch" =
      ["/pkg/talker.launch"] := by decide
  simp only [declaredThenRunning, updateLaunchContent_talker,
    updateDiagnostics_talker d hd]
  have hmerge : mergeRosNode "prov1" "host1" [diagTalker d]
      (runningTalker apiUri mu) =
      { runningTalker apiUri mu with
          idGlobal := "prov1.talker",
          providerName := "host1",
          providerId := "prov1",
          diagnosticLevel := d.level,
          diagnosticMessage := d.message,
          diagnosticStatus := [d],
          launchPaths := ["/pkg/talker.launch"],
          launchInfo := some talkerLaunchNode } := by
    have hridu : (runningTalker apiUri mu).id = "/talker" := rfl
    have hpid : ¬ ((1234 : Int) ≤ 0) := by norm_num
    simp only [mergeRosNode, hridu, hrepl]
    rw [if_neg ?hapi0, if_neg ?hmu0]
    case hapi0 => exact hapi
    case hmu0 => exact hmu
    simp only [runningTalker, newRosNode]
    rw [if_neg hpid]
    simp [diagTalker, inactiveTalker, newRosNode, talkerLaunchNode]
  simp only [updateRosNodes, List.map, hmerge]
  simp [updateLaunchContent, filterLaunchContent, reconcileLaunchFile,
    reconcileLaunchNode, talkerLaunchFile, talkerLaunchNode,
    updateFirstByName, runningTalker, newRosNode, nodeParametersFor,
    associationsFor, hsetadd, mergedTalker]

/-- C4 counterexample: in the declared-then-running scenario with a running
record whose node API URI and masteruri are empty, the model does contain
exactly one RUNNING /talker with pid 1234, but its previously recorded
diagnostics are gone, contradicting the claim. -/
theorem declaredThenRunning_counterexample :
    (declaredThenRunning "" "" ⟨1, "/talker", "warn", "", []⟩).length = 1 ∧
    (∀ n ∈ declaredThenRunning "" "" ⟨1, "/talker", "warn", "", []⟩,
      n.name = "/talker" ∧ n.status = .RUNNING ∧ n.pid = 1234 ∧
        n.diagnosticStatus = []) ∧
    ([] : List DiagnosticStatus) ≠
      [⟨1, "/talker", "warn", "", []⟩] := by
  refine ⟨by decide, by decide, by decide⟩

/-- C4 (amended): in the declared-then-running scenario, after the bundle
pull the model contains exactly one INACTIVE node named /talker; provided
the subsequently pulled running record (same id /talker, pid 1234) carries
a nonempty node API URI and a nonempty masteruri, the model afterwards
contains exactly one node named /talker, RUNNING with pid 1234, and the
diagnostics previously recorded against the INACTIVE entry are still
present on the merged node (with an empty URI the early guard of
updateRosNodes skips the carry-forward and the history is dropped). -/
theorem declaredThenRunning_scenario (apiUri mu : String)
    (d : DiagnosticStatus) (hapi : apiUri ≠ "") (hmu : mu ≠ "")
    (hd : d.name = "/talker") :
    (updateLaunchContent "prov1" "host1" "" [talkerLaunchFile] [] =
        [inactiveTalker] ∧
      inactiveTalker.status = .INACTIVE ∧
      inactiveTalker.name = "/talker") ∧
    declaredThenRunning apiUri mu d = [mergedTalker apiUri mu d] ∧
    (mergedTalker apiUri mu d).name = "/talker" ∧
    (mergedTalker apiUri mu d).status = .RUNNING ∧
    (mergedTalker apiUri mu d).pid = 1234 ∧
    (mergedTalker apiUri mu d).diagnosticStatus = [d] := by
  refine ⟨⟨updateLaunchContent_talker, by decide, by decide⟩,
    declaredThenRunning_eq apiUri mu d hapi hmu hd, rfl, rfl, rfl, rfl⟩

/-- Witness for the amended C4 theorem at a concrete input. -/
theorem declaredThenRunning_scenario_witness :
    ((updateLaunchContent "prov1" "host1" "" [talkerLaunchFile] [] =
        [inactiveTalker] ∧
      inactiveTalker.status = .INACTIVE ∧
      inactiveTalker.name = "/talker") ∧
    declaredThenRunning "http://h1:11311" "http://h1:11311"
        ⟨1, "/talker", "warn", "", []⟩ =
      [mergedTalker "http://h1:11311" "http://h1:11311"
        ⟨1, "/talker", "warn", "", []⟩] ∧
    (mergedTalker "http://h1:11311" "http://h1:11311"
      ⟨1, "/talker", "warn", "", []⟩).name = "/talker" ∧
    (mergedTalker "http://h1:11311" "http://h1:11311"
      ⟨1, "/talker", "warn", "", []⟩).status = .RUNNING ∧
    (mergedTalker "http://h1:11311" "http://h1:11311"
      ⟨1, "/talker", "warn", "", []⟩).pid = 1234 ∧
    (mergedTalker "http://h1:11311" "http://h1:11311"
      ⟨1, "/talker", "warn", "", []⟩).diagnosticStatus =
      [⟨1, "/talker", "warn", "", []⟩]) :=
  declaredThenRunning_scenario "http://h1:11311" "http://h1:11311"
    ⟨1, "/talker", "warn", "", []⟩ (by decide) (by decide) (by decide)

end FkieMas
